import Mathlib

/-!
# Verification of the dental-appointment booking engine

Shallow embedding of the appointment slot-allocation engine of the
`dental-appointment` repository (backend: `src/backend/server.js` and
`src/backend/models/Appointment.js`), together with theorems settling the
frozen claims about its specification.

Modelling conventions:
* A calendar date is a day number (`Nat`, days since the Unix epoch).  The
  server truncates both the requested date and "today" to calendar-day
  granularity (`setHours(0,0,0,0)` on both sides, `server.js` lines 62-66)
  before comparing, so day numbers capture exactly the information the engine
  uses.  JavaScript's `Date.prototype.getDay` returns 0 for Sunday; epoch day
  0 (1970-01-01) was a Thursday, hence `dayOfWeek d = (d + 4) % 7`.
* The MongoDB collection is a `List Appointment`; `Appointment.findOne` is
  `List.find?`, `Appointment.find` with a date filter is `List.filter`, and a
  successful `save` appends the new document.
* Strings (names, complaints, slot labels, messages) are Lean `String`s and
  carry the exact text of the source.
-/

namespace Dental

/-- JavaScript `Date.prototype.getDay` of a day number: Sunday is 0, Monday is
1, ..., Saturday is 6 (`server.js` line 41). -/
def dayOfWeek (d : Nat) : Nat := (d + 4) % 7

/-- The fixed six-slot catalog, in canonical order (`server.js` lines 111-118
and 235-242, and the `timeSlot` enum of `models/Appointment.js`). -/
def allSlots : List String :=
  ["9:00–10:00 AM", "10:00–11:00 AM", "11:00–12:00 PM",
   "12:00–1:00 PM", "2:00–3:00 PM", "3:00–4:00 PM"]

/-- The two Saturday-restricted afternoon slots (`server.js` line 53). -/
def afternoonSlots : List String := ["2:00–3:00 PM", "3:00–4:00 PM"]

/-- The four slots the availability route offers on Saturdays
(`server.js` lines 255-260). -/
def saturdaySlots : List String :=
  ["9:00–10:00 AM", "10:00–11:00 AM", "11:00–12:00 PM", "12:00–1:00 PM"]

/-- Rejection reason of the Sunday rule (`server.js` line 47). -/
def sundayMessage : String := "Appointments are not available on Sundays"

/-- Rejection reason of the Saturday-afternoon rule (`server.js` line 57). -/
def saturdayMessage : String :=
  "On Saturdays, appointments are only available until 1:00 PM"

/-- Rejection reason of the past-date rule (`server.js` line 70). -/
def pastDateMessage : String := "Cannot book appointments for past dates"

/-- Result record of `validateAppointmentSlot` (`server.js` lines 44-74):
`isValid` plus an optional rejection `message`. -/
structure SlotValidation where
  isValid : Bool
  message : Option String
deriving Repr, DecidableEq

/-- The slot-policy evaluator `validateAppointmentSlot` (`server.js` lines
39-75).  `today` is the current date truncated to a day number (the code
truncates `new Date()` with `setHours(0,0,0,0)`).  Rules in source order:
Sunday first, then Saturday afternoon, then past date. -/
def validateAppointmentSlot (today appointmentDate : Nat) (timeSlot : String) :
    SlotValidation :=
  let dow := dayOfWeek appointmentDate
  if dow = 0 then
    { isValid := false, message := some sundayMessage }
  else if dow = 6 ∧ timeSlot ∈ afternoonSlots then
    { isValid := false, message := some saturdayMessage }
  else if appointmentDate < today then
    { isValid := false, message := some pastDateMessage }
  else
    { isValid := true, message := none }

/-- C3: on any Sunday the evaluator rejects with the Sunday reason, for every
slot and every value of `today` — in particular also when the Sunday is in the
past, because the Sunday branch of the source precedes the past-date branch. -/
theorem sunday_rule_fires_first (today d : Nat) (s : String)
    (hsun : dayOfWeek d = 0) :
    validateAppointmentSlot today d s =
      { isValid := false, message := some sundayMessage } := by
  simp [validateAppointmentSlot, hsun]

/-- Witness for `sunday_rule_fires_first`: 2024-01-14 (day 19736) is a Sunday
strictly before today = 2025-06-10 (day 20249), and the evaluator still
returns the Sunday reason, not the past-date reason. -/
theorem sunday_rule_fires_first_witness :
    dayOfWeek 19736 = 0 ∧ 19736 < 20249 ∧
      validateAppointmentSlot 20249 19736 "9:00–10:00 AM" =
        { isValid := false, message := some sundayMessage } :=
  ⟨by decide, by decide, sunday_rule_fires_first 20249 19736 _ (by decide)⟩

/-- C4: on any Saturday the evaluator rejects the two afternoon slots with the
Saturday reason, and allows each of the four morning/midday slots whenever the
date is not in the past. -/
theorem saturday_afternoon_rule (today d : Nat) (s : String)
    (hsat : dayOfWeek d = 6) :
    (s ∈ afternoonSlots →
      validateAppointmentSlot today d s =
        { isValid := false, message := some saturdayMessage }) ∧
    (s ∈ saturdaySlots → today ≤ d →
      validateAppointmentSlot today d s = { isValid := true, message := none }) := by
  constructor
  · intro hs
    simp [validateAppointmentSlot, hsat, hs]
  · intro hs hle
    have hnot : s ∉ afternoonSlots := by
      fin_cases hs <;> decide
    simp [validateAppointmentSlot, hsat, hnot, Nat.not_lt.mpr hle]

/-- Witness for `saturday_afternoon_rule`: 2024-01-13 (day 19735) is a
Saturday; with today = 2024-01-01 (day 19723) the slot "3:00–4:00 PM" is
rejected with the Saturday reason and "9:00–10:00 AM" is allowed. -/
theorem saturday_afternoon_rule_witness :
    validateAppointmentSlot 19723 19735 "3:00–4:00 PM" =
        { isValid := false, message := some saturdayMessage } ∧
      validateAppointmentSlot 19723 19735 "9:00–10:00 AM" =
        { isValid := true, message := none } :=
  ⟨(saturday_afternoon_rule 19723 19735 _ (by decide)).1 (by decide),
   (saturday_afternoon_rule 19723 19735 _ (by decide)).2 (by decide) (by decide)⟩

/-- C5: for a non-Sunday date that is not a Saturday-afternoon request, a date
strictly before today is rejected with the past-date reason, and today's own
date is allowed. -/
theorem past_date_rule (today d : Nat) (s : String)
    (hnsun : dayOfWeek d ≠ 0)
    (hnsat : ¬ (dayOfWeek d = 6 ∧ s ∈ afternoonSlots)) :
    (d < today →
      validateAppointmentSlot today d s =
        { isValid := false, message := some pastDateMessage }) ∧
    (d = today →
      validateAppointmentSlot today d s = { isValid := true, message := none }) := by
  constructor
  · intro hlt
    simp [validateAppointmentSlot, hnsun, hnsat, hlt]
  · intro heq
    subst heq
    simp [validateAppointmentSlot, hnsun, hnsat]

/-- Witness for `past_date_rule`: 2025-06-09 (day 20248, a Monday) is rejected
as a past date when today is 2025-06-10 (day 20249, a Tuesday), while booking
for day 20249 itself on that same day is allowed. -/
theorem past_date_rule_witness :
    validateAppointmentSlot 20249 20248 "9:00–10:00 AM" =
        { isValid := false, message := some pastDateMessage } ∧
      validateAppointmentSlot 20249 20249 "9:00–10:00 AM" =
        { isValid := true, message := none } :=
  ⟨(past_date_rule 20249 20248 _ (by decide) (by decide)).1 (by decide),
   (past_date_rule 20249 20249 _ (by decide) (by decide)).2 rfl⟩

/-- A stored appointment document (`models/Appointment.js`).  `id` is the
UUID assigned by the route, `createdAt` the creation timestamp, `status`
defaults to `"scheduled"`. -/
structure Appointment where
  id : String
  name : String
  sex : String
  age : Int
  complaint : String
  appointmentDate : Nat
  timeSlot : String
  createdAt : Nat
  status : String
deriving Repr, DecidableEq

/-- An inbound booking request body (`server.js` line 141).
`appointmentDate` is the result of `isISO8601().toDate()` parsing: `none`
when the submitted date is malformed. -/
structure BookingRequest where
  name : String
  sex : String
  age : Int
  complaint : String
  appointmentDate : Option Nat
  timeSlot : String
deriving Repr, DecidableEq

/-- The fixed sex enumeration (`server.js` line 89). -/
def validSexes : List String := ["Male", "Female", "Other"]

/-- Whitespace trimming at both ends of a string, as performed by the
`.trim()` sanitizer of the validation chain (`server.js` lines 80, 97) and
the `trim: true` option of the Mongoose schema. -/
def trimText (s : String) : String :=
  String.mk ((s.data.dropWhile Char.isWhitespace).reverse.dropWhile
    Char.isWhitespace).reverse

/-- The `appointmentValidation` middleware chain (`server.js` lines 78-120):
trimmed name of length 2-100, sex in the enumeration, integer age 0-150,
trimmed complaint of length 5-500, a well-formed ISO-8601 date, and a slot
from the catalog. -/
def AppointmentValidationOk (r : BookingRequest) : Prop :=
  2 ≤ (trimText r.name).length ∧ (trimText r.name).length ≤ 100 ∧
  r.sex ∈ validSexes ∧
  0 ≤ r.age ∧ r.age ≤ 150 ∧
  5 ≤ (trimText r.complaint).length ∧ (trimText r.complaint).length ≤ 500 ∧
  r.appointmentDate.isSome = true ∧
  r.timeSlot ∈ allSlots

instance (r : BookingRequest) : Decidable (AppointmentValidationOk r) := by
  unfold AppointmentValidationOk
  infer_instance

/-- Duplicate message of the booking route (`server.js` line 159). -/
def duplicateMessage : String :=
  "This time slot is already booked for the selected date"

/-- The duplicate pre-check `Appointment.findOne({appointmentDate, timeSlot})`
(`server.js` lines 152-155).  Note that it matches every stored record,
regardless of its `status` field. -/
def slotTaken (ledger : List Appointment) (d : Nat) (s : String) :
    Option Appointment :=
  ledger.find? (fun a => a.appointmentDate == d && a.timeSlot == s)

/-- Outcome of `POST /api/appointments`:
400 with a field-error list, 400 with the evaluator's reason, 400 with the
duplicate message, or 200 with the stored record. -/
inductive BookingResult where
  | validationFailed
  | policyRejected (detail : String)
  | duplicate
  | success (appointment : Appointment)
deriving Repr, DecidableEq

/-- The booking route `POST /api/appointments` (`server.js` lines 130-190):
field validation, then the slot-policy evaluator, then the duplicate
pre-check, then construction and save of the new document.  `newId` stands
for `uuidv4()` and `now` for the creation timestamp; the save appends the
document to the collection.  Returns the HTTP outcome and the collection
after the call. -/
def createAppointment (today : Nat) (ledger : List Appointment)
    (newId : String) (now : Nat) (req : BookingRequest) :
    BookingResult × List Appointment :=
  if AppointmentValidationOk req then
    match req.appointmentDate with
    | none => (.validationFailed, ledger)
    | some d =>
      let v := validateAppointmentSlot today d req.timeSlot
      if v.isValid then
        match slotTaken ledger d req.timeSlot with
        | some _ => (.duplicate, ledger)
        | none =>
          let appt : Appointment :=
            { id := newId, name := trimText req.name, sex := req.sex,
              age := req.age, complaint := trimText req.complaint,
              appointmentDate := d, timeSlot := req.timeSlot,
              createdAt := now, status := "scheduled" }
          (.success appt, ledger ++ [appt])
      else
        (.policyRejected (v.message.getD ""), ledger)
  else
    (.validationFailed, ledger)

/-- The ledger invariant of the spec: no two stored records share both the
appointment date and the time slot. -/
def NoDoubleBooking (ledger : List Appointment) : Prop :=
  ledger.Pairwise
    (fun a b => ¬ (a.appointmentDate = b.appointmentDate ∧ a.timeSlot = b.timeSlot))

/-- Inserting a record into a free (date, slot) pair preserves the
no-double-booking invariant. -/
lemma noDoubleBooking_append (ledger : List Appointment) (appt : Appointment)
    (hfree : slotTaken ledger appt.appointmentDate appt.timeSlot = none)
    (hND : NoDoubleBooking ledger) : NoDoubleBooking (ledger ++ [appt]) := by
  rw [NoDoubleBooking, List.pairwise_append]
  refine ⟨hND, by simp, ?_⟩
  intro a ha b hb
  simp only [List.mem_singleton] at hb
  subst hb
  have h := List.find?_eq_none.mp hfree a ha
  simp only [Bool.and_eq_true, beq_iff_eq, not_and] at h
  rintro ⟨h1, h2⟩
  exact absurd h2 (h h1)

/-- After inserting a record, the duplicate pre-check on its (date, slot)
pair finds it. -/
lemma slotTaken_append_self (ledger : List Appointment) (appt : Appointment)
    (h : slotTaken ledger appt.appointmentDate appt.timeSlot = none) :
    slotTaken (ledger ++ [appt]) appt.appointmentDate appt.timeSlot = some appt := by
  rw [slotTaken, List.find?_append]
  rw [slotTaken] at h
  simp [h]

/-- C1: for a well-formed, policy-passing booking request on (d, s):
(i) if any stored record — its status does not matter, the pre-check ignores
it — already occupies (d, s), the route answers with the duplicate error and
leaves the collection unchanged; (ii) after a successful booking, the
identical request immediately repeated answers with the duplicate error and
leaves the collection unchanged; (iii) a booking call preserves the invariant
that no two stored records share both date and time slot (for an arbitrary
request, well-formed or not). -/
theorem duplicate_slot_rejected (today now now2 : Nat) (newId id2 : String)
    (ledger : List Appointment) (req : BookingRequest) (d : Nat)
    (hd : req.appointmentDate = some d)
    (hok : AppointmentValidationOk req)
    (hpol : (validateAppointmentSlot today d req.timeSlot).isValid = true) :
    ((∃ a ∈ ledger, a.appointmentDate = d ∧ a.timeSlot = req.timeSlot) →
      createAppointment today ledger newId now req =
        (BookingResult.duplicate, ledger)) ∧
    (∀ appt ledger',
      createAppointment today ledger newId now req =
          (BookingResult.success appt, ledger') →
      createAppointment today ledger' id2 now2 req =
        (BookingResult.duplicate, ledger')) ∧
    (∀ r : BookingRequest, NoDoubleBooking ledger →
      NoDoubleBooking (createAppointment today ledger newId now r).2) := by
  refine ⟨?_, ?_, ?_⟩
  · rintro ⟨a, ha, h1, h2⟩
    rw [createAppointment, if_pos hok, hd]
    cases hft : slotTaken ledger d req.timeSlot with
    | none =>
      have := List.find?_eq_none.mp hft a ha
      simp [h1, h2] at this
    | some a0 => simp [hpol, hft]
  · intro appt ledger' hsucc
    rw [createAppointment, if_pos hok, hd] at hsucc
    cases hft : slotTaken ledger d req.timeSlot with
    | some a0 => simp [hpol, hft] at hsucc
    | none =>
      simp only [hpol, hft, if_true] at hsucc
      obtain ⟨h1, h2⟩ := Prod.mk.injEq .. ▸ hsucc
      obtain rfl := (BookingResult.success.injEq ..).mp h1
      subst h2
      rw [createAppointment, if_pos hok, hd]
      have := slotTaken_append_self ledger
        { id := newId, name := trimText req.name, sex := req.sex,
          age := req.age, complaint := trimText req.complaint,
          appointmentDate := d, timeSlot := req.timeSlot,
          createdAt := now, status := "scheduled" } hft
      simp [hpol, this]
  · intro r hND
    by_cases hv : AppointmentValidationOk r
    · rw [createAppointment, if_pos hv]
      cases hdr : r.appointmentDate with
      | none => exact hND
      | some dr =>
        by_cases hp : (validateAppointmentSlot today dr r.timeSlot).isValid = true
        · cases hft2 : slotTaken ledger dr r.timeSlot with
          | some a0 => simpa [hp, hft2] using hND
          | none =>
            simp only [hp, hft2, if_true]
            exact noDoubleBooking_append ledger _ hft2 hND
        · simpa [hp] using hND
    · rw [createAppointment, if_neg hv]
      exact hND

/-- A stored record occupying (2025-06-10, "9:00–10:00 AM") whose status is
"cancelled": the pre-check still counts it. -/
def cancelledRecord : Appointment :=
  { id := "a1", name := "Jane Roe", sex := "Female", age := 41,
    complaint := "Broken crown on molar", appointmentDate := 20249,
    timeSlot := "9:00–10:00 AM", createdAt := 0, status := "cancelled" }

/-- A well-formed booking request for (2025-06-10, "9:00–10:00 AM"). -/
def demoRequest : BookingRequest :=
  { name := "John Doe", sex := "Male", age := 30,
    complaint := "Tooth pain and swelling", appointmentDate := some 20249,
    timeSlot := "9:00–10:00 AM" }

/-- Witness for `duplicate_slot_rejected`: booking (2025-06-10,
"9:00–10:00 AM") on 2025-06-10 fails with the duplicate error when a
cancelled record already occupies that pair, and the collection is
unchanged. -/
theorem duplicate_slot_rejected_witness :
    createAppointment 20249 [cancelledRecord] "b2" 5 demoRequest =
      (BookingResult.duplicate, [cancelledRecord]) :=
  (duplicate_slot_rejected 20249 5 6 "b2" "b3" [cancelledRecord] demoRequest
      20249 rfl (by decide) (by decide)).1
    ⟨cancelledRecord, by decide, by decide, by decide⟩

/-- The listing route `GET /api/appointments` (`server.js` lines 193-218):
`Appointment.find().sort({appointmentDate: 1}).limit(1000)` — every stored
document, sorted by appointment date ascending, capped at 1000. -/
def listAll (ledger : List Appointment) : List Appointment :=
  (ledger.mergeSort fun a b => decide (a.appointmentDate ≤ b.appointmentDate)).take 1000

/-- C7: the list-all operation returns the stored records sorted by
appointment date ascending (newest date last); its length is the stored
count capped at 1000; every returned record is a stored record; and when the
store holds at most 1000 records the result is a permutation of the whole
store. -/
theorem listAll_sorted_capped (ledger : List Appointment) :
    List.Sorted (fun a b : Appointment => a.appointmentDate ≤ b.appointmentDate)
        (listAll ledger) ∧
    (listAll ledger).length = min 1000 ledger.length ∧
    (∀ a ∈ listAll ledger, a ∈ ledger) ∧
    (ledger.length ≤ 1000 → (listAll ledger).Perm ledger) := by
  refine ⟨?_, ?_, ?_, ?_⟩
  · have h := @List.sorted_mergeSort Appointment
      (fun a b : Appointment => decide (a.appointmentDate ≤ b.appointmentDate))
      (fun a b c hab hbc => by
        simp only [decide_eq_true_eq] at *
        exact le_trans hab hbc)
      (fun a b => by simp [Nat.le_total]) ledger
    have h2 := List.Pairwise.sublist (List.take_sublist 1000 _) h
    exact h2.imp fun hab => of_decide_eq_true hab
  · simp [listAll, List.length_take, List.length_mergeSort]
  · intro a ha
    have hm := (List.take_sublist 1000 _).subset ha
    exact (List.mergeSort_perm ledger _).mem_iff.mp hm
  · intro hlen
    rw [listAll, List.take_of_length_le (by rw [List.length_mergeSort]; exact hlen)]
    exact List.mergeSort_perm ledger _

/-- A second stored record, on an earlier date (2025-06-09). -/
def earlierRecord : Appointment :=
  { id := "c3", name := "Sam Poe", sex := "Other", age := 27,
    complaint := "Routine cleaning visit", appointmentDate := 20248,
    timeSlot := "2:00–3:00 PM", createdAt := 1, status := "scheduled" }

/-- Witness for `listAll_sorted_capped`: on a two-record store the listing is
a permutation of the store (the cap is not hit). -/
theorem listAll_sorted_capped_witness :
    (listAll [cancelledRecord, earlierRecord]).Perm
      [cancelledRecord, earlierRecord] :=
  (listAll_sorted_capped [cancelledRecord, earlierRecord]).2.2.2 (by decide)

/-- C8: a successful booking returns a record carrying exactly the submitted
field values (name, sex, age, complaint, date, slot — for name and complaint
as sanitized by the boundary trim, here stated for already-trimmed inputs),
the record is stored, and whenever the store holds at most 1000 records the
list-all operation returns it unchanged. -/
theorem booking_round_trip (today now : Nat) (newId : String)
    (ledger : List Appointment) (req : BookingRequest) (d : Nat)
    (hd : req.appointmentDate = some d)
    (hname : trimText req.name = req.name)
    (hcomp : trimText req.complaint = req.complaint)
    (hok : AppointmentValidationOk req)
    (hpol : (validateAppointmentSlot today d req.timeSlot).isValid = true)
    (hfree : slotTaken ledger d req.timeSlot = none) :
    ∃ appt ledger',
      createAppointment today ledger newId now req =
          (BookingResult.success appt, ledger') ∧
      appt.name = req.name ∧ appt.sex = req.sex ∧ appt.age = req.age ∧
      appt.complaint = req.complaint ∧ appt.appointmentDate = d ∧
      appt.timeSlot = req.timeSlot ∧ appt ∈ ledger' ∧
      (ledger'.length ≤ 1000 → appt ∈ listAll ledger') := by
  refine ⟨⟨newId, trimText req.name, req.sex, req.age, trimText req.complaint,
      d, req.timeSlot, now, "scheduled"⟩,
    ledger ++ [⟨newId, trimText req.name, req.sex, req.age,
      trimText req.complaint, d, req.timeSlot, now, "scheduled"⟩],
    ?_, hname, rfl, rfl, hcomp, rfl, rfl, ?_, ?_⟩
  · rw [createAppointment, if_pos hok, hd]
    simp [hpol, hfree]
  · simp
  · intro hlen
    rw [listAll, List.take_of_length_le (by rw [List.length_mergeSort]; exact hlen)]
    exact ((List.mergeSort_perm _ _).mem_iff).mpr (by simp)

/-- Witness for `booking_round_trip`: booking `demoRequest` on an empty store
succeeds, the returned record carries the submitted values, and the listing
returns it. -/
theorem booking_round_trip_witness :
    ∃ appt ledger',
      createAppointment 20249 [] "b2" 5 demoRequest =
          (BookingResult.success appt, ledger') ∧
      appt.name = "John Doe" ∧ appt.sex = "Male" ∧ appt.age = 30 ∧
      appt.complaint = "Tooth pain and swelling" ∧
      appt.appointmentDate = 20249 ∧ appt.timeSlot = "9:00–10:00 AM" ∧
      appt ∈ listAll ledger' := by
  obtain ⟨appt, ledger', heq, h1, h2, h3, h4, h5, h6, _, h8⟩ :=
    booking_round_trip 20249 5 "b2" [] demoRequest 20249 rfl (by decide)
      (by decide) (by decide) (by decide) rfl
  have hlen : ledger'.length ≤ 1000 := by
    have h9 : ledger' = (createAppointment 20249 [] "b2" 5 demoRequest).2 := by
      rw [heq]
    rw [h9]
    decide
  exact ⟨appt, ledger', heq, h1, h2, h3, h4, h5, h6, h8 hlen⟩

/-- Message returned with the empty Sunday listing (`server.js` line 248). -/
def sundayAvailabilityMessage : String := "No appointments available on Sundays"

/-- Detail of the missing-parameter rejection (`server.js` line 227). -/
def missingParamMessage : String :=
  "appointment_date query parameter is required"

/-- Outcome of `GET /api/appointments/available-slots`: a 400 with a detail
string, a 200 with the slot list (and, on Sundays, the explanatory message),
or the 500 the catch-block produces when the collection query fails. -/
inductive AvailResponse where
  | badRequest (detail : String)
  | okSlots (slots : List String) (message : Option String)
  | serverError
deriving Repr, DecidableEq

/-- The `appointment_date` query parameter as seen through JavaScript date
parsing: `none` when the parameter is absent, `some none` when it is present
but not a valid calendar date (`new Date` yields an Invalid Date), and
`some (some d)` when it parses to day number `d`. -/
abbrev DateParam := Option (Option Nat)

/-- The time slots of the records stored for a date:
`Appointment.find({appointmentDate: targetDate})` followed by the map onto
`timeSlot` (`server.js` lines 264-268). -/
def bookedSlotsFor (ledger : List Appointment) (d : Nat) : List String :=
  (ledger.filter fun a => a.appointmentDate == d).map fun a => a.timeSlot

/-- The availability route `GET /api/appointments/available-slots`
(`server.js` lines 221-281).  Absent parameter: 400.  Sunday: empty list plus
the message, before any collection access.  Otherwise the catalog (restricted
to the four morning/midday slots on Saturdays) minus the booked slots.  For a
present but malformed date the source takes neither the Sunday nor the
Saturday branch (`getDay()` of an Invalid Date is `NaN`) and the subsequent
`Appointment.find` rejects while casting the invalid date, which the
catch-block surfaces as the 500 response — there is no input-shape check on
the parameter's value. -/
def getAvailableSlots (ledger : List Appointment)
    (appointment_date : DateParam) : AvailResponse :=
  match appointment_date with
  | none => .badRequest missingParamMessage
  | some none => .serverError
  | some (some d) =>
    if dayOfWeek d = 0 then
      .okSlots [] (some sundayAvailabilityMessage)
    else
      let available := if dayOfWeek d = 6 then saturdaySlots else allSlots
      let booked := bookedSlotsFor ledger d
      .okSlots (available.filter fun slot => !booked.contains slot) none

/-- Which availability requests reach the `Appointment.find` call of
`server.js` line 264: the missing-parameter 400 and the Sunday branch return
first; every other request — including one with a malformed date — queries
the collection. -/
def availabilityTouchesLedger (appointment_date : DateParam) : Bool :=
  match appointment_date with
  | none => false
  | some none => true
  | some (some d) => !(dayOfWeek d == 0)

/-- The day's theoretical slot set in the spec's own words: all six catalog
slots, minus all of them on a Sunday, minus the two afternoon slots on a
Saturday. -/
def specTheoreticalSlots (d : Nat) : List String :=
  if dayOfWeek d = 0 then []
  else if dayOfWeek d = 6 then
    allSlots.filter fun s => !afternoonSlots.contains s
  else allSlots

/-- C6: the availability query answers a Sunday with the empty list plus the
explanatory note, and any other date with exactly the theoretical slot set
(catalog minus Saturday-afternoon slots) minus the slots already stored for
that date; every returned list is a sublist of the catalog, so canonical
order is preserved.  The route never consults "today", so past dates are
listed exactly like future ones. -/
theorem available_slots_spec (ledger : List Appointment) (d : Nat) :
    (dayOfWeek d = 0 →
      getAvailableSlots ledger (some (some d)) =
        AvailResponse.okSlots [] (some sundayAvailabilityMessage)) ∧
    (dayOfWeek d ≠ 0 →
      getAvailableSlots ledger (some (some d)) =
        AvailResponse.okSlots ((specTheoreticalSlots d).filter
          fun s => !(bookedSlotsFor ledger d).contains s) none) ∧
    (∀ slots msg,
      getAvailableSlots ledger (some (some d)) = AvailResponse.okSlots slots msg →
      slots.Sublist allSlots) := by
  have hsat : saturdaySlots = allSlots.filter fun s => !afternoonSlots.contains s := by
    decide
  refine ⟨?_, ?_, ?_⟩
  · intro h0
    simp [getAvailableSlots, h0]
  · intro h0
    by_cases h6 : dayOfWeek d = 6
    · simp [getAvailableSlots, h0, h6, specTheoreticalSlots, hsat]
    · simp [getAvailableSlots, h0, h6, specTheoreticalSlots]
  · intro slots msg heq
    by_cases h0 : dayOfWeek d = 0
    · simp only [getAvailableSlots, h0, if_true, AvailResponse.okSlots.injEq] at heq
      rw [← heq.1]
      exact List.nil_sublist _
    · by_cases h6 : dayOfWeek d = 6 <;>
        simp [getAvailableSlots, h0, h6, AvailResponse.okSlots.injEq] at heq
      · rw [← heq.1]
        exact (List.filter_sublist _).trans (by rw [hsat]; exact List.filter_sublist _)
      · rw [← heq.1]
        exact List.filter_sublist _

/-- Witness for `available_slots_spec` (the spec's Scenario E): with the
(2025-06-10, "9:00–10:00 AM") record stored, the listing for 2025-06-10
excludes "9:00–10:00 AM" and returns the other five slots in catalog order;
and a Sunday (2024-01-14) answers the empty list with the note. -/
theorem available_slots_spec_witness :
    getAvailableSlots [cancelledRecord] (some (some 20249)) =
        AvailResponse.okSlots ["10:00–11:00 AM", "11:00–12:00 PM",
          "12:00–1:00 PM", "2:00–3:00 PM", "3:00–4:00 PM"] none ∧
      getAvailableSlots [cancelledRecord] (some (some 19736)) =
        AvailResponse.okSlots [] (some sundayAvailabilityMessage) := by
  constructor
  · have h := (available_slots_spec [cancelledRecord] 20249).2.1 (by decide)
    rw [h]
    decide
  · exact (available_slots_spec [cancelledRecord] 19736).1 (by decide)

/-- C10: an availability request without the `appointment_date` parameter is
answered with the dedicated 400 detail before the collection is ever
queried; the route performs no write at all (in the embedding it does not
even return a collection). -/
theorem missing_date_param_rejected (ledger : List Appointment) :
    getAvailableSlots ledger none = AvailResponse.badRequest missingParamMessage ∧
    availabilityTouchesLedger none = false :=
  ⟨rfl, rfl⟩

/-- Whether an availability response is a field-level input-shape (400)
rejection: only the missing-parameter answer is; the 500 of the catch-block
is the generic storage-failure answer. -/
def isInputShapeRejection : AvailResponse → Bool
  | .badRequest _ => true
  | _ => false

/-- C9 counterexample: an availability request whose `appointment_date` is
present but malformed is NOT rejected with an input-shape error — the route
proceeds past the day-of-week checks into the `Appointment.find` call, which
fails on the invalid date and surfaces the generic 500. -/
theorem malformed_availability_date_counterexample :
    getAvailableSlots [] (some none) = AvailResponse.serverError ∧
    isInputShapeRejection (getAvailableSlots [] (some none)) = false ∧
    availabilityTouchesLedger (some none) = true := by
  decide

/-- C9 amended: the booking route rejects a malformed date or a non-catalog
slot with the field-validation error and leaves the collection unchanged;
the availability route, by contrast, checks only that the parameter is
present — a present but malformed date proceeds to the collection query and
is answered with the generic 500, not an input-shape error. -/
theorem input_shape_handling (today now : Nat) (newId : String)
    (ledger : List Appointment) (req : BookingRequest)
    (hbad : req.appointmentDate = none ∨ req.timeSlot ∉ allSlots) :
    createAppointment today ledger newId now req =
        (BookingResult.validationFailed, ledger) ∧
    getAvailableSlots ledger (some none) = AvailResponse.serverError ∧
    availabilityTouchesLedger (some none) = true := by
  refine ⟨?_, rfl, rfl⟩
  have hv : ¬ AppointmentValidationOk req := by
    intro hv
    rcases hbad with h | h
    · have h1 := hv.2.2.2.2.2.2.2.1
      rw [h] at h1
      simp at h1
    · exact h hv.2.2.2.2.2.2.2.2
  rw [createAppointment, if_neg hv]

/-- Witness for `input_shape_handling`: a request with a malformed date
(and otherwise valid fields) is answered with the validation error and the
collection stays empty. -/
theorem input_shape_handling_witness :
    createAppointment 20249 [] "b2" 5
        { name := "John Doe", sex := "Male", age := 30,
          complaint := "Tooth pain and swelling", appointmentDate := none,
          timeSlot := "9:00–10:00 AM" } =
      (BookingResult.validationFailed, []) :=
  (input_shape_handling 20249 5 "b2" []
      { name := "John Doe", sex := "Male", age := 30,
        complaint := "Tooth pain and swelling", appointmentDate := none,
        timeSlot := "9:00–10:00 AM" } (Or.inl rfl)).1

/-- The (appointmentDate, timeSlot) index of the Mongoose schema
(`models/Appointment.js` lines 63-64):
`appointmentSchema.index({ appointmentDate: 1, timeSlot: 1 })`.  It is
declared without `unique: true`, so it is a plain (non-unique) index and MongoDB
enforces no uniqueness on the pair at insertion. -/
def appointmentIndexIsUnique : Bool := false

/-- The insert `appointment.save()` (`server.js` line 174) as constrained by the
schema's indexes: under a unique (date, slot) index a duplicate insert would
fail with a duplicate-key error (`none`); under the schema's actual
non-unique index every insert succeeds and appends the document. -/
def saveAppointment (ledger : List Appointment) (appt : Appointment) :
    Option (List Appointment) :=
  if appointmentIndexIsUnique &&
      (slotTaken ledger appt.appointmentDate appt.timeSlot).isSome then
    none
  else
    some (ledger ++ [appt])

/-- One in-flight booking request inside the route's check-then-insert
section (`server.js` lines 152-174), for a request that already passed field
validation and the policy evaluator.  `found` records the duplicate
pre-check's answer once that step has run; `outcome` records the response
once the request finished (`true` = 200 success, `false` = the
duplicate-booking 400). -/
structure InFlight where
  appt : Appointment
  found : Option Bool
  outcome : Option Bool
deriving Repr, DecidableEq

/-- One micro-step of an in-flight request against the shared collection:
first the pre-check reads the collection; then either the duplicate response
(pre-check hit) or the save — which reports the duplicate response if a
unique index rejects it, and success otherwise. -/
def stepInFlight (ledger : List Appointment) (t : InFlight) :
    InFlight × List Appointment :=
  match t.found, t.outcome with
  | none, _ =>
    ({ t with
        found := some (slotTaken ledger t.appt.appointmentDate t.appt.timeSlot).isSome },
      ledger)
  | some true, none => ({ t with outcome := some false }, ledger)
  | some false, none =>
    match saveAppointment ledger t.appt with
    | some ledger' => ({ t with outcome := some true }, ledger')
    | none => ({ t with outcome := some false }, ledger)
  | some _, some _ => (t, ledger)

/-- Interleaved execution of two concurrent requests: `true` entries step the
first request, `false` entries the second. -/
def runSchedule (sched : List Bool) (a b : InFlight)
    (ledger : List Appointment) : InFlight × InFlight × List Appointment :=
  match sched with
  | [] => (a, b, ledger)
  | c :: rest =>
    if c then
      let s := stepInFlight ledger a
      runSchedule rest s.1 b s.2
    else
      let s := stepInFlight ledger b
      runSchedule rest a s.1 s.2

/-- A fresh in-flight request for an appointment document. -/
def startRequest (appt : Appointment) : InFlight :=
  { appt := appt, found := none, outcome := none }

/-- The first of two racing bookings of (2025-06-10, "9:00–10:00 AM"). -/
def raceApptA : Appointment :=
  { id := "a-1", name := "John Doe", sex := "Male", age := 30,
    complaint := "Tooth pain and swelling", appointmentDate := 20249,
    timeSlot := "9:00–10:00 AM", createdAt := 5, status := "scheduled" }

/-- The second racing booking of the same (date, slot) pair. -/
def raceApptB : Appointment :=
  { id := "b-1", name := "Mary Major", sex := "Female", age := 52,
    complaint := "Chipped front tooth", appointmentDate := 20249,
    timeSlot := "9:00–10:00 AM", createdAt := 5, status := "scheduled" }

/-- C2: because the schema's (date, slot) index is not unique, the storage
layer enforces no uniqueness at insertion, and two concurrent reservations
of the same pair can BOTH succeed: under the interleaving where both
pre-checks run before either insert, both requests answer 200 and the
collection ends with two records sharing (2025-06-10, "9:00–10:00 AM") —
refuting exactly-one-succeeds. -/
theorem concurrent_double_booking :
    appointmentIndexIsUnique = false ∧
    raceApptA.appointmentDate = raceApptB.appointmentDate ∧
    raceApptA.timeSlot = raceApptB.timeSlot ∧
    (runSchedule [true, false, true, false]
        (startRequest raceApptA) (startRequest raceApptB) []).1.outcome =
      some true ∧
    (runSchedule [true, false, true, false]
        (startRequest raceApptA) (startRequest raceApptB) []).2.1.outcome =
      some true ∧
    (runSchedule [true, false, true, false]
        (startRequest raceApptA) (startRequest raceApptB) []).2.2 =
      [raceApptA, raceApptB] := by
  decide

end Dental
